import Mathlib

/-!
Verification development for the pentest-report layout engine
(src/docs/generate_report_pdf.py).  All geometry is embedded over ℚ
(millimetre coordinates of an A4 page); colour triples over ℕ.
Line references in doc comments point into src/docs/generate_report_pdf.py.
-/

/-- Colours are RGB triples, as in the palette at lines 37-54. -/
abbrev Color := Nat × Nat × Nat

def C_DARK : Color := (15, 23, 42)
def C_MID : Color := (51, 65, 85)
def C_LIGHT : Color := (226, 232, 240)
def C_WHITE : Color := (255, 255, 255)
def C_RED : Color := (220, 38, 38)
def C_ORANGE : Color := (234, 88, 12)
def C_YELLOW : Color := (202, 138, 4)
def C_GREEN : Color := (22, 163, 74)
def C_BADGE_RED : Color := (254, 226, 226)
def C_BADGE_YEL : Color := (254, 243, 199)
def C_BADGE_GRN : Color := (220, 252, 231)
def C_POS_BG : Color := (220, 252, 231)
def C_NEG_BG : Color := (254, 226, 226)

/-- Page geometry: A4 portrait in mm (`FPDF("P", "mm", "A4")`, line 74),
bottom auto-page-break margin 20 (line 75), other margins 18 (line 76). -/
def pageH : ℚ := 297

def bMargin : ℚ := 20

def tMargin : ℚ := 18

/-- Modelled from the spec: `advance_page()` resets the draw cursor to the
top-margin area of a fresh page (the `fpdf` `add_page`/`header` implementation
that fixes the exact value is external to this repository).  Only freshY ≥ 0
and its value relative to the page capacity matter for the theorems below. -/
def freshY : ℚ := tMargin

/-- `SEVERITY_COLOR` dict (lines 56-61), embedded as a total lookup. -/
def SEVERITY_COLOR (sev : String) : Option Color :=
  if sev = "Critical" then some C_RED
  else if sev = "High" then some C_ORANGE
  else if sev = "Medium" then some C_YELLOW
  else if sev = "Low" then some C_GREEN
  else none

/-- `STATUS_COLOR` dict (lines 62-66). -/
def STATUS_COLOR (status : String) : Option (Color × Color × String) :=
  if status = "non_compliant" then some (C_RED, C_BADGE_RED, "Non-Compliant")
  else if status = "at_risk" then some (C_ORANGE, C_BADGE_YEL, "At Risk")
  else if status = "compliant" then some (C_GREEN, C_BADGE_GRN, "Compliant")
  else none

/-- `severity_badge` foreground (line 161): `SEVERITY_COLOR.get(sev, C_MID)`. -/
def severity_badge_fg (sev : String) : Color :=
  (SEVERITY_COLOR sev).getD C_MID

/-- `severity_badge` background (lines 162-165): a chained conditional whose
final `else` is the green tint `(220, 252, 231)`. -/
def severity_badge_bg (sev : String) : Color :=
  if sev = "Critical" then (254, 226, 226)
  else if sev = "High" then (255, 237, 213)
  else if sev = "Medium" then (254, 249, 195)
  else (220, 252, 231)

/-- Compliance-card style lookup (lines 627-628):
`STATUS_COLOR.get(status, (C_MID, C_LIGHT, status))`. -/
def compliance_style (status : String) : Color × Color × String :=
  (STATUS_COLOR status).getD (C_MID, C_LIGHT, status)

/-- `score_bar` overlay width (line 175): `fill_w = (score / 100) * width`.
No clamping appears in the source. -/
def fill_w (score width : ℚ) : ℚ := (score / 100) * width

/-- `score_bar` fill colour (line 176):
`C_RED if score < 50 else C_YELLOW if score < 70 else C_GREEN`. -/
def score_bar_color (score : ℚ) : Color :=
  if score < 50 then C_RED else if score < 70 then C_YELLOW else C_GREEN

/-- `score_bar` label x-position (line 182): `set_xy(x + fill_w - 14, y)`,
the label cell being 14 wide and right-aligned (line 183). -/
def score_label_x (x score width : ℚ) : ℚ := x + fill_w score width - 14

/-- Stated from the spec's words, for comparison with `fill_w`:
"overlay rectangle whose width = `(score / 100) * bar_width`, clamped to
`[0, bar_width]`". -/
def spec_clamped_fill (score width : ℚ) : ℚ :=
  max 0 (min width ((score / 100) * width))

/-- `code_block` height (lines 187-190): `len(lines) * 4.5 + 4 * 2`. -/
def code_block_height (numLines : Nat) : ℚ := (numLines : ℚ) * (4.5 : ℚ) + 4 * 2

/-- `code_block` page-break test (lines 191-192):
`height > self.h - self.b_margin - self.get_y()`. -/
def code_block_breaks (y hgt : ℚ) : Bool := decide (hgt > pageH - bMargin - y)

/-- Cursor y at which the code block is actually painted (lines 192-195):
after an `add_page()` when the break fires, else unchanged. -/
def code_block_startY (y hgt : ℚ) : ℚ :=
  if code_block_breaks y hgt then freshY else y

/-- Anti-pattern card page-break test (lines 711-712 and 737-738):
`get_y() + card_h > self.h - self.b_margin`. -/
def card_breaks (y cardH : ℚ) : Bool := decide (y + cardH > pageH - bMargin)

/-- Cursor y at which the anti-pattern card is painted (lines 711-717):
re-read after `add_page()` when the break fires, else unchanged. -/
def card_startY (y cardH : ℚ) : ℚ :=
  if card_breaks y cardH then freshY else y

/-- Anti-pattern card height (line 710): `7 + len(lines) * 5.5 + 4`. -/
def card_height (bodyLines : Nat) : ℚ := 7 + (bodyLines : ℚ) * (5.5 : ℚ) + 4

/-- Greedy word-wrap line counter shared by dry-run measurement and painting
(`multi_cell` wraps greedily at word boundaries).  Words are given by their
advance widths, `sp` is the inter-word space width, `cur` the width already
used on the open line. -/
def wrap_count_aux (maxW sp : ℚ) : List ℚ → ℚ → Nat
  | [], _ => 1
  | w :: rest, cur =>
    if cur + sp + w ≤ maxW then wrap_count_aux maxW sp rest (cur + sp + w)
    else (wrap_count_aux maxW sp rest w) + 1

/-- Number of wrapped lines of a word sequence at available width `maxW`. -/
def wrap_count (maxW sp : ℚ) (ws : List ℚ) : Nat :=
  match ws with
  | [] => 0
  | w :: rest => wrap_count_aux maxW sp rest w

/-- Width at which the positive anti-pattern card body is MEASURED
(line 709): `multi_cell(158, 5.5, detail, dry_run=True, output="LINES")`. -/
def measure_width_card : ℚ := 158

/-- Width at which the positive anti-pattern card body is PAINTED
(line 725): `multi_cell(164, 5.5, detail)`. -/
def paint_width_card : ℚ := 164

/-- Vertical extent the dry-run measurement reserves for the card body:
measured line count (at width 158) times the 5.5 line height. -/
def measured_body_height (sp : ℚ) (ws : List ℚ) : ℚ :=
  (wrap_count measure_width_card sp ws : ℚ) * (5.5 : ℚ)

/-- Vertical extent the body paint actually consumes: painted line count
(at width 164) times the 5.5 line height. -/
def painted_body_height (sp : ℚ) (ws : List ℚ) : ℚ :=
  (wrap_count paint_width_card sp ws : ℚ) * (5.5 : ℚ)

/-- Top-level operations of the document assembler, at section granularity. -/
inductive BuildOp where
  | addPage
  | h1 (title : String)
  | content
deriving DecidableEq

/-- The module's top-level build sequence (lines 244-753), one `.addPage`
per explicit `pdf.add_page()`, one `.h1` per section banner, `.content`
for the body of each section.  Note: no `add_page()` precedes the
`h1("2.  Test Policy")` call at line 363. -/
def build_script : List BuildOp :=
  [BuildOp.addPage, BuildOp.content,
   BuildOp.addPage, BuildOp.h1 ("1.  Overview"), BuildOp.content,
   BuildOp.h1 ("2.  Test Policy"), BuildOp.content,
   BuildOp.addPage, BuildOp.h1 ("3.  Test Result Summary"), BuildOp.content,
   BuildOp.addPage, BuildOp.h1 ("4.  Test Result Description"), BuildOp.content,
   BuildOp.addPage, BuildOp.h1 ("5.  Security Suggestions"), BuildOp.content,
   BuildOp.addPage, BuildOp.h1 ("6.  Remediation as Code"), BuildOp.content,
   BuildOp.addPage, BuildOp.h1 ("7.  Learned Anti-Patterns"), BuildOp.content]

/-- Page number on which each section banner is painted: fold the build
sequence with a page counter (page 0 before the first `add_page`). -/
def h1_pages : List BuildOp → Nat → List (String × Nat)
  | [], _ => []
  | BuildOp.addPage :: rest, p => h1_pages rest (p + 1)
  | BuildOp.h1 t :: rest, p => (t, p) :: h1_pages rest p
  | BuildOp.content :: rest, p => h1_pages rest p

/-- Page on which the named section starts in the module's build sequence. -/
def section_page (t : String) : Option Nat :=
  ((h1_pages build_script 0).lookup t)

/-- Severity counts, as in the `counts` dict (line 294). -/
structure SevCounts where
  critical : Nat
  high : Nat
  medium : Nat
  low : Nat
deriving DecidableEq

/-- Split a string at newline characters (Python `str.split("\n")`). -/
def splitLinesAux : List Char → List Char → List (List Char)
  | [], acc => [acc.reverse]
  | c :: rest, acc =>
    if c = '\n' then acc.reverse :: splitLinesAux rest []
    else splitLinesAux rest (c :: acc)

def splitLines (s : String) : List (List Char) := splitLinesAux s.toList []

/-- Substring containment (Python `pat in line`). -/
def containsSub (pat l : List Char) : Bool :=
  l.tails.any (fun t => pat.isPrefixOf t)

/-- One iteration of the scan loop (lines 296-299):
`f"| {sev}" in line or f"| {sev.lower()}" in line.lower()`. -/
def lineHit (sev : String) (line : List Char) : Bool :=
  containsSub (("| ").toList ++ sev.toList) line ||
  containsSub (("| ").toList ++ sev.toList.map Char.toLower) (line.map Char.toLower)

/-- The input-driven severity counts the module computes from the executive
summary (lines 294-299), before the override. -/
def scannedCounts (summary : String) : SevCounts :=
  (splitLines summary).foldl
    (fun c line =>
      { critical := c.critical + (if lineHit ("Critical") line then 1 else 0)
        high := c.high + (if lineHit ("High") line then 1 else 0)
        medium := c.medium + (if lineHit ("Medium") line then 1 else 0)
        low := c.low + (if lineHit ("Low") line then 1 else 0) })
    ⟨0, 0, 0, 0⟩

/-- The severity counts the cover page actually renders (lines 294-302):
the scan result is computed and then discarded, replaced by the fixed
literals `{"Critical": 2, "High": 1, "Medium": 1, "Low": 0}` (line 302,
source comment: "use fixed mock counts"). -/
def coverCounts (summary : String) : SevCounts :=
  let _scanned := scannedCounts summary
  ⟨2, 1, 1, 0⟩

/-- Severities of the four findings rendered in Section 4, in order
(lines 475-554). -/
def findingsSeverityList : List String :=
  [("Critical" : String), "Critical", "High", "Medium"]

/-- Histogram of a severity list. -/
def severityHistogram (l : List String) : SevCounts :=
  ⟨l.countP (fun s => s == "Critical"), l.countP (fun s => s == "High"),
   l.countP (fun s => s == "Medium"), l.countP (fun s => s == "Low")⟩

/-- A concrete executive summary whose section-3 table holds three
Critical rows. -/
def exampleSummary : String :=
  "| Critical | SQL Injection |\n| Critical | Tomcat Manager |\n| Critical | MySQL Root |"

/-- Primitive draw operations, for the header/footer contract. -/
inductive DrawOp where
  | rectOp (x y w h : ℚ) (c : Color)
  | textCell (s : String)
deriving DecidableEq

/-- `PentestReport.header` (lines 84-95): returns immediately on page 1,
otherwise paints the branding bar and context text. -/
def header_ops (pageNo : Nat) (target : String) : List DrawOp :=
  if pageNo = 1 then []
  else [DrawOp.rectOp 0 0 210 10 C_DARK,
        DrawOp.textCell ("  AutoRed.AI — Penetration Test Report  |  " ++ target ++ "  |  CONFIDENTIAL")]

/-- `PentestReport.footer` (lines 97-105): unconditionally paints the
footer line on every page. -/
def footer_ops (shortSid generated : String) : List DrawOp :=
  [DrawOp.textCell ("AutoRed.AI v1.0  |  Session " ++ shortSid ++ "  |  Generated " ++ generated)]

/-- `AntiPattern` record (spec §3; consumed at lines 700-753). -/
structure AntiPattern where
  type : String
  title : String
  detail : String
deriving DecidableEq

/-- `positives = [p for p in PATTERNS if p["type"] == "positive"]` (line 700). -/
def positives (ps : List AntiPattern) : List AntiPattern :=
  ps.filter (fun p => p.type == "positive")

/-- `negatives = [p for p in PATTERNS if p["type"] == "negative"]` (line 701). -/
def negatives (ps : List AntiPattern) : List AntiPattern :=
  ps.filter (fun p => p.type == "negative")

/-- Order in which Section 7 renders the anti-pattern cards: the whole
positive loop (lines 703-727) runs before the whole negative loop
(lines 729-753). -/
def rendered_patterns (ps : List AntiPattern) : List AntiPattern :=
  positives ps ++ negatives ps

/-- C1: the spec demands measurement/paint parity — same wrapping at the same
width, measured line count times line height equal to the painted extent.
The code measures the positive anti-pattern card body at width 158 (line 709)
but paints it at width 164 (line 725); for a detail text of two 80 mm words
(space 1 mm) the measurement wraps to two lines and reserves 11 mm of body
height while the paint produces one line consuming 5.5 mm. -/
theorem C1_measure_paint_divergence :
    measure_width_card ≠ paint_width_card ∧
    wrap_count measure_width_card 1 [80, 80] = 2 ∧
    wrap_count paint_width_card 1 [80, 80] = 1 ∧
    measured_body_height 1 [80, 80] ≠ painted_body_height 1 [80, 80] := by
  have hm : wrap_count measure_width_card 1 [80, 80] = 2 := by
    norm_num [wrap_count, wrap_count_aux, measure_width_card]
  have hp : wrap_count paint_width_card 1 [80, 80] = 1 := by
    norm_num [wrap_count, wrap_count_aux, paint_width_card]
  refine ⟨by norm_num [measure_width_card, paint_width_card], hm, hp, ?_⟩
  simp only [measured_body_height, painted_body_height, hm, hp]
  norm_num

/-- C2 counterexample: a code block of 70 lines (height 323 mm) exceeds even
an empty page's capacity; the page break fires as the claim requires, yet the
element still extends past the bottom margin (18 + 323 > 277), so its painted
vertical interval does straddle a page boundary. -/
theorem C2_counterexample :
    code_block_breaks freshY (code_block_height 70) = true ∧
    code_block_startY freshY (code_block_height 70) + code_block_height 70 >
      pageH - bMargin := by
  have hh : code_block_height 70 = 323 := by norm_num [code_block_height]
  have hb : code_block_breaks freshY (code_block_height 70) = true := by
    simp only [code_block_breaks, gt_iff_lt, decide_eq_true_eq]
    rw [hh]
    norm_num [freshY, tMargin, pageH, bMargin]
  refine ⟨hb, ?_⟩
  unfold code_block_startY
  rw [if_pos hb, hh]
  norm_num [freshY, tMargin, pageH, bMargin]

/-- C2 amended: for every atomic element (code block or anti-pattern card)
whose computed height fits the capacity of a fresh page, the painted vertical
interval `[startY, startY + height]` stays above the bottom margin, and the
page break fires exactly when the height exceeds the remaining height on the
current page. -/
theorem C2_atomic_fits (y hgt : ℚ) (hfit : hgt ≤ pageH - bMargin - freshY) :
    code_block_startY y hgt + hgt ≤ pageH - bMargin ∧
    card_startY y hgt + hgt ≤ pageH - bMargin ∧
    (code_block_breaks y hgt = true ↔ pageH - bMargin - y < hgt) ∧
    (card_breaks y hgt = true ↔ pageH - bMargin < y + hgt) := by
  have hiff1 : code_block_breaks y hgt = true ↔ pageH - bMargin - y < hgt := by
    simp [code_block_breaks]
  have hiff2 : card_breaks y hgt = true ↔ pageH - bMargin < y + hgt := by
    simp [card_breaks]
  have h1 : code_block_startY y hgt + hgt ≤ pageH - bMargin := by
    unfold code_block_startY
    by_cases hb : pageH - bMargin - y < hgt
    · rw [if_pos (hiff1.mpr hb)]
      linarith
    · rw [if_neg (fun hx => hb (hiff1.mp hx))]
      linarith
  have h2 : card_startY y hgt + hgt ≤ pageH - bMargin := by
    unfold card_startY
    by_cases hb : pageH - bMargin < y + hgt
    · rw [if_pos (hiff2.mpr hb)]
      linarith
    · rw [if_neg (fun hx => hb (hiff2.mp hx))]
      linarith
  exact ⟨h1, h2, hiff1, hiff2⟩

theorem C2_atomic_fits_witness :
    code_block_height 30 ≤ pageH - bMargin - freshY ∧
    (code_block_startY 100 (code_block_height 30) + code_block_height 30 ≤
        pageH - bMargin ∧
      card_startY 100 (code_block_height 30) + code_block_height 30 ≤
        pageH - bMargin ∧
      (code_block_breaks 100 (code_block_height 30) = true ↔
        pageH - bMargin - 100 < code_block_height 30) ∧
      (card_breaks 100 (code_block_height 30) = true ↔
        pageH - bMargin < 100 + code_block_height 30)) :=
  ⟨by norm_num [code_block_height, pageH, bMargin, freshY, tMargin],
   C2_atomic_fits 100 (code_block_height 30)
     (by norm_num [code_block_height, pageH, bMargin, freshY, tMargin])⟩

/-- C3 counterexample: in the module's build sequence the "2.  Test Policy"
banner is painted on the same page (page 2) as the "1.  Overview" banner —
no `add_page()` precedes it (line 363) — so the Overview → Policy transition
does not start a new page. -/
theorem C3_counterexample :
    section_page ("2.  Test Policy") = section_page ("1.  Overview") ∧
    section_page ("2.  Test Policy") = some 2 := by
  refine ⟨rfl, rfl⟩

/-- C3 amended: every section transition of the fixed sequence starts a new
page except the initial Cover state and except the Overview → Policy
transition, which continues on the Overview's page: the banner pages are
2, 2, 3, 4, 5, 6, 7. -/
theorem C3_transitions :
    h1_pages build_script 0 =
      [("1.  Overview", 2), ("2.  Test Policy", 2), ("3.  Test Result Summary", 3),
       ("4.  Test Result Description", 4), ("5.  Security Suggestions", 5),
       ("6.  Remediation as Code", 6), ("7.  Learned Anti-Patterns", 7)] := rfl

/-- C4 counterexample: `score_bar` performs no clamping (line 175); a score
of 150 at bar width 100 yields a fill width of 150, not the spec's clamped
value 100. -/
theorem C4_counterexample :
    fill_w 150 100 = 150 ∧ spec_clamped_fill 150 100 = 100 ∧
    fill_w 150 100 ≠ spec_clamped_fill 150 100 := by
  refine ⟨by norm_num [fill_w], by norm_num [spec_clamped_fill], by norm_num [fill_w, spec_clamped_fill]⟩

/-- C4 amended: the overlay fill width equals `(score / 100) * width` with no
clamping; for scores in `[0, 100]` and nonnegative width this coincides with
the spec's clamped value, and in particular score 35 renders a fill of width
`0.35 * width` with the low colour `C_RED`. -/
theorem C4_fill_width (score w : ℚ) (h0 : 0 ≤ score) (h100 : score ≤ 100)
    (hw : 0 ≤ w) :
    fill_w score w = (score / 100) * w ∧
    fill_w score w = spec_clamped_fill score w ∧
    fill_w 35 w = (35 / 100) * w ∧
    score_bar_color 35 = C_RED := by
  refine ⟨rfl, ?_, rfl, by norm_num [score_bar_color]⟩
  unfold fill_w spec_clamped_fill
  have hle : (score / 100) * w ≤ w := by
    have h1 : score / 100 ≤ 1 := by
      rw [div_le_one (by norm_num : (0 : ℚ) < 100)]
      linarith
    calc (score / 100) * w ≤ 1 * w := mul_le_mul_of_nonneg_right h1 hw
    _ = w := one_mul w
  have hnn : 0 ≤ (score / 100) * w := mul_nonneg (div_nonneg h0 (by norm_num)) hw
  rw [min_eq_right hle, max_eq_right hnn]

theorem C4_fill_width_witness :
    ((0 : ℚ) ≤ 35 ∧ (35 : ℚ) ≤ 100 ∧ (0 : ℚ) ≤ 100) ∧
    (fill_w 35 100 = (35 / 100) * 100 ∧
      fill_w 35 100 = spec_clamped_fill 35 100 ∧
      fill_w 35 100 = (35 / 100) * 100 ∧
      score_bar_color 35 = C_RED) :=
  ⟨by norm_num,
   C4_fill_width 35 100 (by norm_num) (by norm_num) (by norm_num)⟩

/-- C5: score-bar monotonicity — for `0 ≤ s1 < s2 ≤ 100` and nonnegative bar
width, the fill width for `s1` is at most the fill width for `s2`; the fill
width at score 0 is 0 and at score 100 is the full bar width. -/
theorem C5_monotone (s1 s2 w : ℚ) (h0 : 0 ≤ s1) (h12 : s1 < s2)
    (h100 : s2 ≤ 100) (hw : 0 ≤ w) :
    fill_w s1 w ≤ fill_w s2 w ∧ fill_w 0 w = 0 ∧ fill_w 100 w = w := by
  refine ⟨?_, by norm_num [fill_w], by norm_num [fill_w]⟩
  unfold fill_w
  have h1 : s1 / 100 ≤ s2 / 100 := by linarith
  exact mul_le_mul_of_nonneg_right h1 hw

theorem C5_monotone_witness :
    ((0 : ℚ) ≤ 20 ∧ (20 : ℚ) < 80 ∧ (80 : ℚ) ≤ 100 ∧ (0 : ℚ) ≤ 60) ∧
    (fill_w 20 60 ≤ fill_w 80 60 ∧ fill_w 0 60 = 0 ∧ fill_w 100 60 = 60) :=
  ⟨by norm_num,
   C5_monotone 20 80 60 (by norm_num) (by norm_num) (by norm_num) (by norm_num)⟩

/-- C6 counterexample: an unrecognised severity string renders its badge with
the background `(220, 252, 231)` — the green tint that is also the Low
severity's badge background — rather than a neutral grey background such as
`C_LIGHT`; so the fallback is not entirely neutral. -/
theorem C6_counterexample :
    severity_badge_bg ("Unknown") = C_BADGE_GRN ∧
    C_BADGE_GRN ≠ C_LIGHT ∧
    severity_badge_bg ("Unknown") = severity_badge_bg ("Low") := by
  refine ⟨by decide, by decide, by decide⟩

/-- C6 amended: unknown severity and status values are non-fatal (the lookups
are total, falling through to defaults): an unknown severity renders with the
neutral grey foreground `C_MID` but the green-tint background
`(220, 252, 231)` of the final `else` branch, and an unknown status renders
with the fully neutral style `(C_MID, C_LIGHT)` labelled by the raw status
string. -/
theorem C6_fallback (sev status : String)
    (n1 : sev ≠ "Critical") (n2 : sev ≠ "High") (n3 : sev ≠ "Medium")
    (n4 : sev ≠ "Low") (m1 : status ≠ "non_compliant")
    (m2 : status ≠ "at_risk") (m3 : status ≠ "compliant") :
    severity_badge_fg sev = C_MID ∧
    severity_badge_bg sev = (220, 252, 231) ∧
    compliance_style status = (C_MID, C_LIGHT, status) := by
  refine ⟨?_, ?_, ?_⟩
  · simp only [severity_badge_fg, SEVERITY_COLOR, if_neg n1, if_neg n2,
      if_neg n3, if_neg n4, Option.getD_none]
  · simp only [severity_badge_bg, if_neg n1, if_neg n2, if_neg n3, if_neg n4]
  · simp only [compliance_style, STATUS_COLOR, if_neg m1, if_neg m2,
      if_neg m3, Option.getD_none]

theorem C6_fallback_witness :
    (("Banana" : String) ≠ "Critical" ∧ ("Banana" : String) ≠ "High" ∧
      ("Banana" : String) ≠ "Medium" ∧ ("Banana" : String) ≠ "Low" ∧
      ("pending" : String) ≠ "non_compliant" ∧
      ("pending" : String) ≠ "at_risk" ∧ ("pending" : String) ≠ "compliant") ∧
    (severity_badge_fg ("Banana") = C_MID ∧
      severity_badge_bg ("Banana") = (220, 252, 231) ∧
      compliance_style ("pending") = (C_MID, C_LIGHT, "pending")) :=
  ⟨by decide,
   C6_fallback ("Banana") ("pending") (by decide) (by decide) (by decide)
     (by decide) (by decide) (by decide) (by decide)⟩

/-- C7: the cover's "Findings at a Glance" counts are not input-driven: the
scan of the executive summary (lines 294-299) is discarded and replaced by
the fixed literals `{2, 1, 1, 0}` (line 302).  For an executive summary whose
table lists three Critical rows, the input-driven scan yields `{3, 0, 0, 0}`
while the cover still renders `{2, 1, 1, 0}` — which merely coincides with the
histogram of the hardcoded findings list of Section 4. -/
theorem C7_hardcoded_override :
    scannedCounts exampleSummary = ⟨3, 0, 0, 0⟩ ∧
    coverCounts exampleSummary = ⟨2, 1, 1, 0⟩ ∧
    coverCounts exampleSummary ≠ scannedCounts exampleSummary ∧
    coverCounts exampleSummary = severityHistogram findingsSeverityList := by
  refine ⟨by decide, rfl, by decide, by decide⟩

/-- C8: the running page header is painted exactly on pages other than
page 1 (`header` returns immediately when `page_no() == 1`, line 85), and the
footer is painted unconditionally on every page. -/
theorem C8_header_footer (p : Nat) (target shortSid generated : String) :
    (header_ops p target ≠ [] ↔ p ≠ 1) ∧
    footer_ops shortSid generated ≠ [] := by
  constructor
  · by_cases hp : p = 1 <;> simp [header_ops, hp]
  · simp [footer_ops]

/-- C9: Section 7 renders every positive anti-pattern before any negative
one, each group being the order-preserving filter of the input list: the
rendered order is `positives ++ negatives`, every member of each group has
the corresponding type, each group's length equals the number of inputs of
that type (so none is dropped), and each group is a sublist of the input
(so the original relative order is preserved). -/
theorem C9_partition (ps : List AntiPattern) :
    rendered_patterns ps = positives ps ++ negatives ps ∧
    (positives ps).all (fun p => p.type == "positive") = true ∧
    (negatives ps).all (fun p => p.type == "negative") = true ∧
    (positives ps).length = ps.countP (fun p => p.type == "positive") ∧
    (negatives ps).length = ps.countP (fun p => p.type == "negative") ∧
    List.Sublist (positives ps) ps ∧ List.Sublist (negatives ps) ps := by
  refine ⟨rfl, ?_, ?_, ?_, ?_, List.filter_sublist ps, List.filter_sublist ps⟩
  · rw [List.all_eq_true]
    intro x hx
    exact (List.mem_filter.mp hx).2
  · rw [List.all_eq_true]
    intro x hx
    exact (List.mem_filter.mp hx).2
  · rw [List.countP_eq_length_filter]
    rfl
  · rw [List.countP_eq_length_filter]
    rfl

/-- C10: the score label is a 14-wide right-aligned cell placed at
`x + fill_w - 14` (line 182), so its right edge coincides with the right edge
of the fill; whenever the fill width `(score / 100) * width` is below 14
(e.g. any score below 14 at bar width 100), the label's left edge lies to the
left of the bar's origin `x`. -/
theorem C10_label_position (score w x : ℚ) (hsmall : fill_w score w < 14) :
    score_label_x x score w + 14 = x + fill_w score w ∧
    score_label_x x score w < x := by
  unfold score_label_x
  constructor
  · ring
  · linarith

theorem C10_label_position_witness :
    fill_w 10 100 < 14 ∧
    (score_label_x 20 10 100 + 14 = 20 + fill_w 10 100 ∧
      score_label_x 20 10 100 < 20) :=
  ⟨by norm_num [fill_w],
   C10_label_position 10 100 20 (by norm_num [fill_w])⟩
